import Mathlib

/-!
Shallow embedding of the warmhouse event-driven replication pipeline:
the publisher (src/apps/devices_management/rabbitmq.py, api.py) and the
consumer with its derived-store writer
(src/apps/telemetry_api/event_handler.py).

Modelling conventions:
* JSON values are `JsonVal`; numbers are modelled as integers (every
  numeric field of the pipeline is an integer id).  An object is the
  ordered field list produced by parsing; `jlookup` takes the last
  binding for a key, matching Python dict construction where a later
  duplicate key overwrites an earlier one.
* A delivered message body is `Option JsonVal`: `none` models a body on
  which `json.loads` raises, `some v` the parsed value.
* Database timestamps (`NOW()`) are opaque strings passed in as a `now`
  parameter; the derived-store table `devices` is a map from id to row.
* Fallible steps (pydantic validation) return `Option`; a database
  error during the store call is modelled by the `dbFail` flag, and a
  raised exception surfaces as the `Ack.nacked false` outcome of
  `process_message` with the state it left behind.
-/

inductive JsonVal where
  | null : JsonVal
  | bool : Bool → JsonVal
  | num : Int → JsonVal
  | str : String → JsonVal
  | arr : List JsonVal → JsonVal
  | obj : List (String × JsonVal) → JsonVal

/-- Dict-style lookup on a parsed object: the last binding for a key
wins, as in Python dict construction from parsed JSON. -/
def jlookup (key : String) (fields : List (String × JsonVal)) : Option JsonVal :=
  fields.foldl (fun acc kv => if kv.1 = key then some kv.2 else acc) none

def toHexDigit (n : Nat) : Char :=
  if n < 10 then Char.ofNat (48 + n) else Char.ofNat (87 + n)

def hex4 (n : Nat) : String :=
  String.mk [toHexDigit (n / 4096 % 16), toHexDigit (n / 256 % 16),
             toHexDigit (n / 16 % 16), toHexDigit (n % 16)]

/-- Escaping of one character as Python json.dumps does with its default
ensure_ascii=True: short escapes for quote, backslash and the common
control characters, \uXXXX for other control and non-ASCII characters
(surrogate pairs above the BMP). -/
def escapeChar (c : Char) : String :=
  if c = '"' then "\\\""
  else if c = '\\' then "\\\\"
  else if c = '\n' then "\\n"
  else if c = '\t' then "\\t"
  else if c = '\r' then "\\r"
  else if c.toNat = 8 then "\\b"
  else if c.toNat = 12 then "\\f"
  else if c.toNat < 32 ∨ c.toNat > 126 then
    if c.toNat < 65536 then "\\u" ++ hex4 c.toNat
    else
      let v := c.toNat - 65536
      "\\u" ++ hex4 (55296 + v / 1024) ++ "\\u" ++ hex4 (56320 + v % 1024)
  else String.singleton c

def escapeString (s : String) : String :=
  "\"" ++ String.join (s.data.map escapeChar) ++ "\""

mutual
/-- Python json.dumps with its default separators: items joined by a
comma and a space, keys followed by a colon and a space. -/
def dumps : JsonVal → String
  | JsonVal.null => "null"
  | JsonVal.bool true => "true"
  | JsonVal.bool false => "false"
  | JsonVal.num n => toString n
  | JsonVal.str s => escapeString s
  | JsonVal.arr xs => "[" ++ dumpsArr xs ++ "]"
  | JsonVal.obj fs => "\x7b" ++ dumpsObj fs ++ "\x7d"

def dumpsArr : List JsonVal → String
  | [] => ""
  | [x] => dumps x
  | x :: y :: rest => dumps x ++ ", " ++ dumpsArr (y :: rest)

def dumpsObj : List (String × JsonVal) → String
  | [] => ""
  | [kv] => escapeString kv.1 ++ ": " ++ dumps kv.2
  | kv :: p :: rest => escapeString kv.1 ++ ": " ++ dumps kv.2 ++ ", " ++ dumpsObj (p :: rest)
end

/-! ### Consumer-side pydantic models (event_handler.py lines 30-42) -/

/-- The pydantic `Device` model of event_handler.py: `id`, `name` and
`type` are required, the rest default to None. -/
structure Device where
  id : Int
  name : String
  type : String
  description : Option String := none
  location : Option String := none
  connection_info : Option (List (String × JsonVal)) := none
  tags : Option (List String) := none
  created_at : Option String := none

/-- The pydantic `DeviceDeleted` model of event_handler.py. -/
structure DeviceDeleted where
  id : Int
  deletedAt : Option String := none

def asInt : JsonVal → Option Int
  | JsonVal.num n => some n
  | _ => none

def asStr : JsonVal → Option String
  | JsonVal.str s => some s
  | _ => none

/-- Validation of an optional string field: absent or null becomes
None, a string is kept, any other value is a validation error. -/
def asOptStr : Option JsonVal → Option (Option String)
  | none => some none
  | some JsonVal.null => some none
  | some (JsonVal.str s) => some (some s)
  | some _ => none

def asOptObj : Option JsonVal → Option (Option (List (String × JsonVal)))
  | none => some none
  | some JsonVal.null => some none
  | some (JsonVal.obj o) => some (some o)
  | some _ => none

def asStrings : List JsonVal → Option (List String)
  | [] => some []
  | v :: vs =>
    match v with
    | JsonVal.str s => (asStrings vs).map (fun r => s :: r)
    | _ => none

def asOptTags : Option JsonVal → Option (Option (List String))
  | none => some none
  | some JsonVal.null => some none
  | some (JsonVal.arr xs) => (asStrings xs).map some
  | some _ => none

/-- Validation performed by `Device(**message_data)`: the body must be
an object, `id` an integer, `name` and `type` strings, the optional
fields absent, null or of their declared type; extra keys are ignored
(pydantic default). -/
def Device.decode (v : JsonVal) : Option Device :=
  match v with
  | JsonVal.obj fields =>
    (jlookup "id" fields >>= asInt).bind (fun i =>
    (jlookup "name" fields >>= asStr).bind (fun n =>
    (jlookup "type" fields >>= asStr).bind (fun t =>
    (asOptStr (jlookup "description" fields)).bind (fun de =>
    (asOptStr (jlookup "location" fields)).bind (fun lo =>
    (asOptObj (jlookup "connection_info" fields)).bind (fun ci =>
    (asOptTags (jlookup "tags" fields)).bind (fun tg =>
    (asOptStr (jlookup "created_at" fields)).map (fun ca =>
      { id := i, name := n, type := t, description := de, location := lo,
        connection_info := ci, tags := tg, created_at := ca }))))))))
  | _ => none

/-- Validation performed by `DeviceDeleted(**message_data)`. -/
def DeviceDeleted.decode (v : JsonVal) : Option DeviceDeleted :=
  match v with
  | JsonVal.obj fields =>
    (jlookup "id" fields >>= asInt).bind (fun i =>
    (asOptStr (jlookup "deletedAt" fields)).map (fun da =>
      { id := i, deletedAt := da }))
  | _ => none

/-! ### The derived store (telemetry `devices` table) -/

/-- A row of the telemetry `devices` table.  `connection_info` is the
JSON text written by the INSERT (the column holds the serialized
dict); `created_at` and `updated_at` hold the `NOW()` timestamps. -/
structure DeviceRow where
  id : Int
  name : String
  type : String
  description : Option String
  location : Option String
  connection_info : String
  tags : List String
  created_at : String
  updated_at : String
deriving DecidableEq, Repr

def Store := Int → Option DeviceRow

def emptyStore : Store := fun _ => none

/-- The INSERT ... ON CONFLICT (id) DO UPDATE of `save_device_to_db`
(event_handler.py lines 56-90): a fresh row gets `created_at` and
`updated_at` from NOW(); on conflict every mutable field is overwritten
from the incoming device — with `connection_info` serialized from
`device_data.connection_info or DICT()` and `tags` from
`device_data.tags or []` — `updated_at` is refreshed and `id` and
`created_at` are left as they were. -/
def save_device_to_db (device_data : Device) (now : String) (s : Store) : Store :=
  fun k =>
    if k = device_data.id then
      some (match s device_data.id with
        | none =>
          { id := device_data.id
            name := device_data.name
            type := device_data.type
            description := device_data.description
            location := device_data.location
            connection_info := dumps (JsonVal.obj (device_data.connection_info.getD []))
            tags := device_data.tags.getD []
            created_at := now
            updated_at := now }
        | some old =>
          { old with
            name := device_data.name
            type := device_data.type
            description := device_data.description
            location := device_data.location
            connection_info := dumps (JsonVal.obj (device_data.connection_info.getD []))
            tags := device_data.tags.getD []
            updated_at := now })
    else s k

/-- The DELETE FROM devices WHERE id = $1 of `delete_device_from_db`
(event_handler.py lines 93-105); deleting an absent id matches no row
and raises nothing. -/
def delete_device_from_db (device_id : Int) (s : Store) : Store :=
  fun k => if k = device_id then none else s k

/-! ### Consumer message processing (event_handler.py lines 107-134) -/

/-- Python's str.split for a one-character separator; `split(".")` of
the empty string is the one-element list holding the empty string. -/
def splitChar (sep : Char) (s : String) : List String :=
  s.data.foldr
    (fun c acc =>
      match acc with
      | [] => [String.singleton c]
      | cur :: rest =>
        if c = sep then "" :: cur :: rest
        else (String.singleton c ++ cur) :: rest)
    [""]

/-- The `message.routing_key.split(".")[-1]` of process_message. -/
def lastSegment (rk : String) : String :=
  (splitChar '.' rk).getLastD ""

/-- The if/elif chain of process_message lines 116-121: the recognized
segments are renamed, any other segment is kept unchanged. -/
def toEventType (seg : String) : String :=
  if seg = "created" then "deviceCreated"
  else if seg = "updated" then "deviceUpdated"
  else if seg = "deleted" then "deviceDeleted"
  else seg

inductive Ack where
  | acked : Ack
  | nacked : Bool → Ack
deriving DecidableEq, Repr

/-- The `process_message` handler.  The body argument is the result of
`json.loads` (`none` when it raises); the empty routing key fails the
`assert message.routing_key`; `dbFail` injects a raised exception from
the database call.  Every raised exception is caught by the outer
try/except and answered with `message.nack(requeue=False)`; success
ends in `message.ack()`. -/
def process_message (body : Option JsonVal) (routing_key : String)
    (dbFail : Bool) (now : String) (s : Store) : Store × Ack :=
  match body with
  | none => (s, Ack.nacked false)
  | some message_data =>
    if routing_key = "" then (s, Ack.nacked false)
    else
      let event_type := toEventType (lastSegment routing_key)
      if event_type = "deviceCreated" ∨ event_type = "deviceUpdated" then
        match Device.decode message_data with
        | none => (s, Ack.nacked false)
        | some device =>
          if dbFail then (s, Ack.nacked false)
          else (save_device_to_db device now s, Ack.acked)
      else if event_type = "deviceDeleted" then
        match DeviceDeleted.decode message_data with
        | none => (s, Ack.nacked false)
        | some device_deleted =>
          if dbFail then (s, Ack.nacked false)
          else (delete_device_from_db device_deleted.id s, Ack.acked)
      else (s, Ack.acked)

/-- The queue of the consumer is bound to the topic exchange with the
pattern devices.* (event_handler.py line 149): a delivered routing key
is exactly two dot-separated words, the first being devices. -/
def matchesBinding (rk : String) : Bool :=
  match splitChar '.' rk with
  | [w1, _] => w1 = "devices"
  | _ => false

/-- Decode succeeds for a message: json.loads succeeded and, on the
branch the routing key selects, the pydantic validation succeeded. -/
def messageDecodeOk (body : Option JsonVal) (rk : String) : Bool :=
  match body with
  | none => false
  | some message_data =>
    let event_type := toEventType (lastSegment rk)
    if event_type = "deviceCreated" ∨ event_type = "deviceUpdated" then
      (Device.decode message_data).isSome
    else if event_type = "deviceDeleted" then
      (DeviceDeleted.decode message_data).isSome
    else true

/-- The message reaches a derived-store call: decoding succeeded on a
branch that performs one. -/
def storeTouched (body : Option JsonVal) (rk : String) : Bool :=
  match body with
  | none => false
  | some message_data =>
    let event_type := toEventType (lastSegment rk)
    if event_type = "deviceCreated" ∨ event_type = "deviceUpdated" then
      (Device.decode message_data).isSome
    else if event_type = "deviceDeleted" then
      (DeviceDeleted.decode message_data).isSome
    else false

/-! ### Publisher side (rabbitmq.py, api.py) -/

inductive ExchangeType where
  | topic : ExchangeType
  | direct : ExchangeType
  | fanout : ExchangeType
deriving DecidableEq, Repr

structure Exchange where
  name : String
  etype : ExchangeType
  durable : Bool
deriving DecidableEq, Repr

inductive DeliveryMode where
  | persistent : DeliveryMode
  | not_persistent : DeliveryMode
deriving DecidableEq, Repr

/-- The aio_pika Message built by publish_event. -/
structure BrokerMessage where
  body : String
  delivery_mode : DeliveryMode
  content_type : String
deriving DecidableEq, Repr

/-- A broker connection as the client observes it. -/
structure Conn where
  is_closed : Bool
deriving DecidableEq, Repr

/-- The mutable state of RabbitMQClient (rabbitmq.py lines 14-18):
connection, channel and exchange handles, all starting as None. -/
structure RabbitMQClient where
  connection : Option Conn
  channel : Option Bool
  exchange : Option Exchange

def RABBITMQ_EXCHANGE : String := "device-exchange"

/-- RabbitMQClient.connect (rabbitmq.py lines 20-31): obtain a fresh
connection and channel and declare the durable topic exchange named by
RABBITMQ_EXCHANGE.  The fresh connection the broker hands back is a
parameter. -/
def RabbitMQClient.connect (_c : RabbitMQClient) (fresh : Conn) : RabbitMQClient :=
  { connection := some fresh
    channel := some true
    exchange := some { name := RABBITMQ_EXCHANGE, etype := ExchangeType.topic, durable := true } }

/-- One published event: the exchange handle used, the routing key and
the message. -/
structure PublishedEvent where
  exchange : Option Exchange
  routing_key : String
  message : BrokerMessage

/-- RabbitMQClient.publish_event (rabbitmq.py lines 33-50): reconnect
when no connection is cached or the cached one is closed, then publish
the JSON-encoded payload persistently with content-type
application/json on the cached exchange handle. -/
def RabbitMQClient.publish_event (c : RabbitMQClient) (fresh : Conn)
    (routing_key : String) (message_data : List (String × JsonVal)) :
    RabbitMQClient × PublishedEvent :=
  let c2 :=
    match c.connection with
    | none => c.connect fresh
    | some conn => if conn.is_closed then c.connect fresh else c
  (c2,
   { exchange := c2.exchange
     routing_key := routing_key
     message :=
       { body := dumps (JsonVal.obj message_data)
         delivery_mode := DeliveryMode.persistent
         content_type := "application/json" } })

/-- The columns of the authoritative DeviceModel row that the publish
helpers of api.py read; `created_at` is carried as its isoformat
rendering (None when the column is NULL). -/
structure DeviceModel where
  id : Int
  name : String
  type : String
  description : Option String
  location : Option String
  connection_info : Option (List (String × JsonVal))
  tags : Option (List String)
  created_at : Option String

def optStrVal : Option String → JsonVal
  | none => JsonVal.null
  | some s => JsonVal.str s

/-- The device_data dict built by publish_device_created_event
(api.py lines 101-115), in insertion order. -/
def deviceCreatedEventData (d : DeviceModel) : List (String × JsonVal) :=
  [("id", JsonVal.num d.id),
   ("name", JsonVal.str d.name),
   ("type", JsonVal.str d.type),
   ("description", optStrVal d.description),
   ("location", optStrVal d.location),
   ("connection_info",
     match d.connection_info with
     | none => JsonVal.null
     | some o => JsonVal.obj o),
   ("tags",
     match d.tags with
     | none => JsonVal.null
     | some ts => JsonVal.arr (ts.map JsonVal.str)),
   ("created_at", optStrVal d.created_at)]

/-- The device_data dict built by publish_device_updated_event
(api.py lines 118-131): the same fields as for creation. -/
def deviceUpdatedEventData (d : DeviceModel) : List (String × JsonVal) :=
  [("id", JsonVal.num d.id),
   ("name", JsonVal.str d.name),
   ("type", JsonVal.str d.type),
   ("description", optStrVal d.description),
   ("location", optStrVal d.location),
   ("connection_info",
     match d.connection_info with
     | none => JsonVal.null
     | some o => JsonVal.obj o),
   ("tags",
     match d.tags with
     | none => JsonVal.null
     | some ts => JsonVal.arr (ts.map JsonVal.str)),
   ("created_at", optStrVal d.created_at)]

def publish_device_created_event (d : DeviceModel) (c : RabbitMQClient)
    (fresh : Conn) : RabbitMQClient × PublishedEvent :=
  c.publish_event fresh "devices.created" (deviceCreatedEventData d)

def publish_device_updated_event (d : DeviceModel) (c : RabbitMQClient)
    (fresh : Conn) : RabbitMQClient × PublishedEvent :=
  c.publish_event fresh "devices.updated" (deviceUpdatedEventData d)

/-! ### Helper views used by the claims -/

/-- Every field of a derived row except `updated_at`. -/
def DeviceRow.sans (r : DeviceRow) :
    Int × String × String × Option String × Option String × String × List String × String :=
  (r.id, r.name, r.type, r.description, r.location, r.connection_info, r.tags, r.created_at)

def bodyKeys (b : List (String × JsonVal)) : List String :=
  b.map (fun kv => kv.1)

def isNumV : Option JsonVal → Bool
  | some (JsonVal.num _) => true
  | _ => false

def isStrV : Option JsonVal → Bool
  | some (JsonVal.str _) => true
  | _ => false

def isNullOrStr : Option JsonVal → Bool
  | some JsonVal.null => true
  | some (JsonVal.str _) => true
  | _ => false

def isNullOrObj : Option JsonVal → Bool
  | some JsonVal.null => true
  | some (JsonVal.obj _) => true
  | _ => false

def isNullOrStrArr : Option JsonVal → Bool
  | some JsonVal.null => true
  | some (JsonVal.arr xs) =>
    xs.all (fun v => match v with | JsonVal.str _ => true | _ => false)
  | _ => false

/-- The envelope types and nullability stated in the spec for the
created and updated bodies. -/
def specTyped (b : List (String × JsonVal)) : Bool :=
  isNumV (jlookup "id" b) && isStrV (jlookup "name" b) && isStrV (jlookup "type" b) &&
  isNullOrStr (jlookup "description" b) && isNullOrStr (jlookup "location" b) &&
  isNullOrObj (jlookup "connection_info" b) && isNullOrStrArr (jlookup "tags" b) &&
  isNullOrStr (jlookup "created_at" b)

/-! ### Shared helper lemmas and concrete artifacts -/

theorem all_map_str (ts : List String) :
    (ts.map JsonVal.str).all
      (fun v => match v with | JsonVal.str _ => true | _ => false) = true := by
  induction ts with
  | nil => rfl
  | cons a ts ih => simp [ih]

theorem asStrings_map_str (ts : List String) :
    asStrings (ts.map JsonVal.str) = some ts := by
  induction ts with
  | nil => rfl
  | cons a ts ih => simp [asStrings, ih]

theorem matchesBinding_ne_empty (rk : String) (h : matchesBinding rk = true) :
    rk ≠ "" := by
  intro he
  rw [he] at h
  exact absurd h (by decide)

def rowW : DeviceRow :=
  { id := 5, name := "old", type := "sensor", description := none, location := none,
    connection_info := "\x7b\x7d", tags := [], created_at := "t0", updated_at := "t0" }

def storeW : Store := fun k => if k = 5 then some rowW else none

def deviceW : Device :=
  { id := 5, name := "new", type := "camera", description := some "d",
    location := some "kitchen", connection_info := none, tags := some ["a"],
    created_at := some "t1" }

/-! ### C4: deletion removes the row and is a no-op on a missing id -/

/-- C4: for every id, `delete_device_from_db` removes the row with that
id when present, leaves every other row unchanged, and when no row with
that id exists the whole store is left unchanged (the operation is
total, so nothing is raised). -/
theorem delete_removes_and_missing_id_noop (s : Store) (device_id : Int) :
    delete_device_from_db device_id s device_id = none ∧
    (∀ j, j ≠ device_id → delete_device_from_db device_id s j = s j) ∧
    (s device_id = none → ∀ j, delete_device_from_db device_id s j = s j) := by
  refine ⟨by simp [delete_device_from_db], ?_, ?_⟩
  · intro j hj
    simp [delete_device_from_db, hj]
  · intro h j
    by_cases hj : j = device_id
    · subst hj
      simp [delete_device_from_db, h]
    · simp [delete_device_from_db, hj]

/-- Witness for C4: deleting the absent id 9 from a one-row store
yields none at 9 and leaves the row at 5 in place. -/
theorem delete_removes_and_missing_id_noop_witness :
    delete_device_from_db 9 storeW 9 = none ∧
    delete_device_from_db 9 storeW 5 = storeW 5 :=
  ⟨(delete_removes_and_missing_id_noop storeW 9).1,
   (delete_removes_and_missing_id_noop storeW 9).2.2 rfl 5⟩

/-! ### C6: last write wins within one id -/

def deviceA : Device := { id := 1, name := "A", type := "sensor" }

def deviceB : Device := { id := 1, name := "B", type := "sensor" }

/-- C6: applying Created(id=1,name=A) then Updated(id=1,name=B) through
the writer leaves name B at id 1; applied in the reverse order the name
is that of the event applied last. -/
theorem last_write_wins_name (s : Store) (t1 t2 : String) :
    ((save_device_to_db deviceB t2 (save_device_to_db deviceA t1 s)) 1).map DeviceRow.name
      = some "B" ∧
    ((save_device_to_db deviceA t2 (save_device_to_db deviceB t1 s)) 1).map DeviceRow.name
      = some "A" :=
  ⟨rfl, rfl⟩

/-! ### C7: upsert on conflict overwrites exactly the mutable fields -/

/-- C7: when the store already holds a row for the incoming id, the
upsert overwrites exactly name, type, description, location,
connection_info and tags, refreshes updated_at, keeps the stored id and
created_at, and leaves every other id untouched. -/
theorem upsert_conflict_overwrites_mutable_fields (s : Store) (d : Device)
    (old : DeviceRow) (now : String) (h : s d.id = some old) :
    (save_device_to_db d now s) d.id =
      some { old with
        name := d.name
        type := d.type
        description := d.description
        location := d.location
        connection_info := dumps (JsonVal.obj (d.connection_info.getD []))
        tags := d.tags.getD []
        updated_at := now } ∧
    ∀ j, j ≠ d.id → (save_device_to_db d now s) j = s j := by
  constructor
  · simp [save_device_to_db, h]
  · intro j hj
    simp [save_device_to_db, hj]

/-- Witness for C7: a concrete conflicting upsert. -/
theorem upsert_conflict_overwrites_mutable_fields_witness :
    (save_device_to_db deviceW "t2" storeW) deviceW.id =
      some { rowW with
        name := deviceW.name
        type := deviceW.type
        description := deviceW.description
        location := deviceW.location
        connection_info := dumps (JsonVal.obj (deviceW.connection_info.getD []))
        tags := deviceW.tags.getD []
        updated_at := "t2" } ∧
    (save_device_to_db deviceW "t2" storeW) 9 = storeW 9 :=
  ⟨(upsert_conflict_overwrites_mutable_fields storeW deviceW rowW "t2" rfl).1,
   (upsert_conflict_overwrites_mutable_fields storeW deviceW rowW "t2" rfl).2 9 (by decide)⟩

/-! ### C1: the upsert is idempotent up to updated_at -/

theorem sans_save_save (d : Device) (t1 t2 : String) (s : Store) :
    ((save_device_to_db d t2 (save_device_to_db d t1 s)) d.id).map DeviceRow.sans
      = ((save_device_to_db d t1 s) d.id).map DeviceRow.sans := by
  cases h : s d.id <;> simp [save_device_to_db, DeviceRow.sans, h]

/-- C1: applying the upsert for one device record one-plus-N times (at
times t then ts, so N+1 >= 1 applications) ends in the same derived
record at that id as applying it once at t, field for field except
updated_at, which the later applications may advance. -/
theorem upsert_repeat_agrees_with_once (d : Device) (s : Store) (t : String)
    (ts : List String) :
    ((ts.foldl (fun st u => save_device_to_db d u st) (save_device_to_db d t s)) d.id).map
        DeviceRow.sans
      = ((save_device_to_db d t s) d.id).map DeviceRow.sans := by
  induction ts generalizing s t with
  | nil => rfl
  | cons u rest ih =>
    simp only [List.foldl_cons]
    exact (ih (save_device_to_db d t s) u).trans (sans_save_save d t u s)

/-! ### C3: what a DeviceCreated application actually writes -/

/-- The property C3 states, read off the claim: applying a
DeviceCreated event for a snapshot to an empty derived store yields a
record whose visible fields equal the snapshot's (equality for
connection_info read as equality with its serialized form, and for
created_at required only when the snapshot carries one), with tags
defaulted to the empty sequence when absent. -/
def claimC3Statement (d : Device) (now : String) : Prop :=
  ∃ r, (save_device_to_db d now emptyStore) d.id = some r ∧
    r.id = d.id ∧ r.name = d.name ∧ r.type = d.type ∧
    r.description = d.description ∧ r.location = d.location ∧
    (∀ ci, d.connection_info = some ci → r.connection_info = dumps (JsonVal.obj ci)) ∧
    r.tags = d.tags.getD [] ∧
    (∀ c, d.created_at = some c → r.created_at = c)

def deviceC3 : Device :=
  { id := 42, name := "Thermo", type := "temperature_sensor",
    created_at := some "2020-01-01T00:00:00" }

/-- C3 counterexample: the writer sets created_at from the store-side
NOW(), not from the snapshot, so a snapshot carrying
created_at 2020-01-01 applied at 2024-06-01 violates the claimed
field-for-field equality. -/
theorem created_event_copies_snapshot_refuted :
    ¬ claimC3Statement deviceC3 "2024-06-01T12:00:00" := by
  rintro ⟨r, hr, -, -, -, -, -, -, -, hca⟩
  have hrow : (save_device_to_db deviceC3 "2024-06-01T12:00:00" emptyStore) deviceC3.id
      = some { id := 42, name := "Thermo", type := "temperature_sensor",
               description := none, location := none,
               connection_info := dumps (JsonVal.obj []), tags := [],
               created_at := "2024-06-01T12:00:00",
               updated_at := "2024-06-01T12:00:00" } := rfl
  rw [hrow] at hr
  injection hr with h
  subst h
  have hc := hca "2020-01-01T00:00:00" rfl
  exact absurd hc (by decide)

/-- C3 amended: applying a DeviceCreated event for a snapshot to an
empty store writes the snapshot's id, name, type, description and
location, serializes connection_info (defaulting to the empty object)
and defaults tags to the empty sequence, and sets created_at and
updated_at to the store-side current time — the snapshot's created_at
is not copied. -/
theorem created_event_snapshot_fields (d : Device) (now : String) :
    (save_device_to_db d now emptyStore) d.id =
      some { id := d.id, name := d.name, type := d.type,
             description := d.description, location := d.location,
             connection_info := dumps (JsonVal.obj (d.connection_info.getD [])),
             tags := d.tags.getD [], created_at := now, updated_at := now } := by
  simp [save_device_to_db, emptyStore]

/-! ### C5: a created message without the name field is nacked -/

/-- C5: a message on devices.created whose JSON body has no name field
fails the pydantic validation, so the consumer nacks it without requeue
and the derived store is returned exactly unchanged. -/
theorem missing_name_nacks_store_unchanged (fields : List (String × JsonVal))
    (dbFail : Bool) (now : String) (s : Store)
    (h : jlookup "name" fields = none) :
    process_message (some (JsonVal.obj fields)) "devices.created" dbFail now s
      = (s, Ack.nacked false) := by
  have hdec : Device.decode (JsonVal.obj fields) = none := by
    rcases h1 : jlookup "id" fields with _ | v
    · simp [Device.decode, h1]
    · rcases h2 : asInt v with _ | i
      · simp [Device.decode, h1, h2]
      · simp [Device.decode, h1, h2, h]
  have hseg : toEventType (lastSegment "devices.created") = "deviceCreated" := rfl
  simp [process_message, hseg, hdec]

/-- Witness for C5: a concrete body holding only an id. -/
theorem missing_name_nacks_store_unchanged_witness :
    jlookup "name" [("id", JsonVal.num 1)] = none ∧
    process_message (some (JsonVal.obj [("id", JsonVal.num 1)])) "devices.created"
        false "t" emptyStore = (emptyStore, Ack.nacked false) :=
  ⟨rfl, missing_name_nacks_store_unchanged [("id", JsonVal.num 1)] false "t" emptyStore rfl⟩

/-! ### C10: unrecognized routing-key segments -/

/-- C10 counterexample: devices.deviceDeleted matches the binding and
its last segment is none of created, updated, deleted, yet the consumer
does not ack an empty JSON object on it — the two-step renaming in
process_message lets the segment deviceDeleted reach the DeviceDeleted
branch, whose validation fails, so the message is nacked. -/
theorem unrecognized_segment_ack_refuted :
    matchesBinding "devices.deviceDeleted" = true ∧
    lastSegment "devices.deviceDeleted" ≠ "created" ∧
    lastSegment "devices.deviceDeleted" ≠ "updated" ∧
    lastSegment "devices.deviceDeleted" ≠ "deleted" ∧
    (process_message (some (JsonVal.obj [])) "devices.deviceDeleted" false "t"
        emptyStore).2 ≠ Ack.acked :=
  ⟨rfl, by decide, by decide, by decide, by decide⟩

/-- C10 amended: for a delivered message (routing key matching the
devices.* binding) whose body is valid JSON and whose last dot-delimited
segment is none of created, updated, deleted, deviceCreated,
deviceUpdated, deviceDeleted, the consumer acknowledges the message and
leaves the derived store exactly unchanged. -/
theorem unrecognized_segment_acks_noop (body : JsonVal) (rk : String)
    (dbFail : Bool) (now : String) (s : Store)
    (hb : matchesBinding rk = true)
    (h : lastSegment rk ∉
      (["created", "updated", "deleted",
        "deviceCreated", "deviceUpdated", "deviceDeleted"] : List String)) :
    process_message (some body) rk dbFail now s = (s, Ack.acked) := by
  have hne : rk ≠ "" := matchesBinding_ne_empty rk hb
  simp only [List.mem_cons, List.mem_singleton, not_or] at h
  obtain ⟨h1, h2, h3, h4, h5, h6⟩ := h
  have het : toEventType (lastSegment rk) = lastSegment rk := by
    simp [toEventType, h1, h2, h3]
  simp [process_message, hne, het, h4, h5, h6]

/-- Witness for C10 amended: devices.rebooted with a trivially valid
body is acked and the store is untouched. -/
theorem unrecognized_segment_acks_noop_witness :
    matchesBinding "devices.rebooted" = true ∧
    process_message (some (JsonVal.obj [])) "devices.rebooted" false "t" emptyStore
      = (emptyStore, Ack.acked) :=
  ⟨rfl, unrecognized_segment_acks_noop (JsonVal.obj []) "devices.rebooted"
      false "t" emptyStore rfl (by decide)⟩

/-! ### C2: acknowledgment policy -/

/-- C2: for a delivered message (routing key matching the devices.*
binding), the consumer acks exactly when decoding succeeded and, if a
derived-store call was reached, that call raised nothing; otherwise it
nacks without requeue, leaving the store it was given. -/
theorem ack_iff_decode_and_store_ok (body : Option JsonVal) (rk : String)
    (dbFail : Bool) (now : String) (s : Store)
    (hb : matchesBinding rk = true) :
    ((process_message body rk dbFail now s).2 = Ack.acked ↔
      (messageDecodeOk body rk = true ∧
        (storeTouched body rk = true → dbFail = false))) ∧
    ((process_message body rk dbFail now s).2 ≠ Ack.acked →
      process_message body rk dbFail now s = (s, Ack.nacked false)) := by
  have hne : rk ≠ "" := matchesBinding_ne_empty rk hb
  rcases body with _ | data
  · simp [process_message, messageDecodeOk]
  · by_cases hc : toEventType (lastSegment rk) = "deviceCreated" ∨
        toEventType (lastSegment rk) = "deviceUpdated"
    · rcases hd : Device.decode data with _ | dev
      · simp [process_message, messageDecodeOk, storeTouched, hne, hc, hd]
      · cases dbFail <;>
          simp [process_message, messageDecodeOk, storeTouched, hne, hc, hd]
    · by_cases hdel : toEventType (lastSegment rk) = "deviceDeleted"
      · rcases hd : DeviceDeleted.decode data with _ | dd
        · simp [process_message, messageDecodeOk, storeTouched, hne, hc, hdel, hd]
        · cases dbFail <;>
            simp [process_message, messageDecodeOk, storeTouched, hne, hc, hdel, hd]
      · simp [process_message, messageDecodeOk, storeTouched, hne, hc, hdel]

def bodyW : Option JsonVal :=
  some (JsonVal.obj
    [("id", JsonVal.num 7), ("name", JsonVal.str "N"), ("type", JsonVal.str "T")])

/-- Witness for C2: a well-formed created message on a matching key. -/
theorem ack_iff_decode_and_store_ok_witness :
    matchesBinding "devices.created" = true ∧
    ((((process_message bodyW "devices.created" false "t" emptyStore).2 = Ack.acked ↔
      (messageDecodeOk bodyW "devices.created" = true ∧
        (storeTouched bodyW "devices.created" = true → false = false))) ∧
    ((process_message bodyW "devices.created" false "t" emptyStore).2 ≠ Ack.acked →
      process_message bodyW "devices.created" false "t" emptyStore
        = (emptyStore, Ack.nacked false)))) :=
  ⟨rfl, ack_iff_decode_and_store_ok bodyW "devices.created" false "t" emptyStore rfl⟩

/-! ### C8: the published envelope and the consumer's schema -/

/-- C8 counterexample: the body published for a device creation does
not use the keys connectionInfo and createdAt the claim states — the
code publishes connection_info and created_at. -/
theorem event_body_camel_keys_refuted :
    bodyKeys (deviceCreatedEventData
      { id := 42, name := "Thermo", type := "temperature_sensor", description := none,
        location := none, connection_info := none, tags := some ["kitchen"],
        created_at := some "2024-01-01T00:00:00" }) ≠
    ["id", "name", "type", "description", "location", "connectionInfo", "tags",
     "createdAt"] := by
  decide

/-- C8 amended: for every device snapshot, the body published on
devices.created and devices.updated is the same JSON object with
exactly the keys id, name, type, description, location,
connection_info, tags, created_at, with the spec's types and
nullability, and the consumer's Device model decodes a body of exactly
that shape back into the snapshot's fields. -/
theorem event_body_keys_types_roundtrip (d : DeviceModel) :
    bodyKeys (deviceCreatedEventData d) =
      ["id", "name", "type", "description", "location", "connection_info", "tags",
       "created_at"] ∧
    deviceUpdatedEventData d = deviceCreatedEventData d ∧
    specTyped (deviceCreatedEventData d) = true ∧
    Device.decode (JsonVal.obj (deviceCreatedEventData d)) =
      some { id := d.id, name := d.name, type := d.type,
             description := d.description, location := d.location,
             connection_info := d.connection_info, tags := d.tags,
             created_at := d.created_at } := by
  obtain ⟨i, n, ty, de, lo, ci, tg, ca⟩ := d
  refine ⟨rfl, rfl, ?_, ?_⟩
  · cases de <;> cases lo <;> cases ci <;> cases tg <;> cases ca <;>
      simp [specTyped, deviceCreatedEventData, jlookup, optStrVal, isNumV, isStrV,
            isNullOrStr, isNullOrObj, isNullOrStrArr, all_map_str]
  · cases de <;> cases lo <;> cases ci <;> cases tg <;> cases ca <;>
      simp [Device.decode, deviceCreatedEventData, jlookup, optStrVal, asInt, asStr,
            asOptStr, asOptObj, asOptTags, asStrings_map_str]

/-! ### C9: publisher reconnect and message shape -/

/-- C9: publish_event reconnects — re-establishing the connection and
re-declaring the durable topic exchange — exactly as connect does
whenever no connection is cached or the cached one is reported closed,
and in every case publishes the JSON encoding of the payload with
persistent delivery mode and content-type application/json under the
requested routing key on the cached exchange handle. -/
theorem publish_reconnects_and_message_shape (c : RabbitMQClient) (fresh : Conn)
    (rk : String) (payload : List (String × JsonVal)) :
    ((c.connection = none ∨ ∃ conn, c.connection = some conn ∧ conn.is_closed = true) →
      (c.publish_event fresh rk payload).1 = c.connect fresh ∧
      (c.publish_event fresh rk payload).1.exchange =
        some { name := RABBITMQ_EXCHANGE, etype := ExchangeType.topic, durable := true }) ∧
    (c.publish_event fresh rk payload).2.message =
      { body := dumps (JsonVal.obj payload),
        delivery_mode := DeliveryMode.persistent,
        content_type := "application/json" } ∧
    (c.publish_event fresh rk payload).2.routing_key = rk ∧
    (c.publish_event fresh rk payload).2.exchange =
      (c.publish_event fresh rk payload).1.exchange := by
  refine ⟨?_, rfl, rfl, rfl⟩
  intro h
  rcases h with h | ⟨conn, hc, hcl⟩
  · constructor <;> simp [RabbitMQClient.publish_event, RabbitMQClient.connect, h]
  · constructor <;> simp [RabbitMQClient.publish_event, RabbitMQClient.connect, hc, hcl]

def clientW : RabbitMQClient :=
  { connection := some { is_closed := true }, channel := some true,
    exchange := some { name := "stale", etype := ExchangeType.topic, durable := true } }

def freshW : Conn := { is_closed := false }

/-- Witness for C9: a client whose cached connection is closed
reconnects and publishes the encoded payload. -/
theorem publish_reconnects_and_message_shape_witness :
    (clientW.publish_event freshW "devices.created" [("id", JsonVal.num 1)]).1
      = clientW.connect freshW ∧
    (clientW.publish_event freshW "devices.created" [("id", JsonVal.num 1)]).2.message =
      { body := dumps (JsonVal.obj [("id", JsonVal.num 1)]),
        delivery_mode := DeliveryMode.persistent,
        content_type := "application/json" } :=
  ⟨((publish_reconnects_and_message_shape clientW freshW "devices.created"
      [("id", JsonVal.num 1)]).1 (Or.inr ⟨{ is_closed := true }, rfl, rfl⟩)).1,
   (publish_reconnects_and_message_shape clientW freshW "devices.created"
      [("id", JsonVal.num 1)]).2.1⟩
